/-
Verification of the castingsim solidification core against its specification.

This file gives a shallow embedding, over exact rationals, of the parts of
`src/backend` that the claims concern:

  * `fenics_solver.py` (ProfessionalSolidificationSolver): construction-time
    validation, matrix assembly (`_assemble_matrices`,
    `_tet_shape_grads_and_volume`), the implicit timestep
    (`_solve_timestep`), phase update (`_update_phase`), Niyama computation
    (`_compute_niyama`) and the hotspot part of `_analyze_defects`;
  * `materials.py` (`effective_cp`), `thermal_step.py` (`step_temperature`),
    `simulate.py` (gradient/Niyama formulas of `run_sim`),
    `hotspots.py` (`detect_hotspots`) and `gating.py` (`surface_candidates`).

Machine floats are modelled by exact rationals; `numpy`'s square root
(used only for triangle areas and point distances) is abstracted as an
explicit function argument `sq : Q -> Q`, instantiated in concrete runs by
`qsqrt`, the exact rational square root (the concrete geometries are chosen
so that every norm the code actually takes is a perfect square, hence
`qsqrt` agrees with the real square root there).  The sparse linear solve
`scipy.sparse.linalg.spsolve` is modelled relationally: `SolvesStep n A b x`
states that `x` solves the assembled system, which is exactly the property
of the vector the solver hands back on a non-singular system.
-/
import Mathlib

namespace CastingSim

/-! ## Vectors over the rationals (numpy 3-vectors) -/

structure Vec3 where
  x : ℚ
  y : ℚ
  z : ℚ
deriving DecidableEq, Repr

def vzero : Vec3 := ⟨0, 0, 0⟩

def vadd (u v : Vec3) : Vec3 := ⟨u.x + v.x, u.y + v.y, u.z + v.z⟩

def vsub (u v : Vec3) : Vec3 := ⟨u.x - v.x, u.y - v.y, u.z - v.z⟩

def vneg (u : Vec3) : Vec3 := ⟨-u.x, -u.y, -u.z⟩

def smul (c : ℚ) (u : Vec3) : Vec3 := ⟨c * u.x, c * u.y, c * u.z⟩

def dot3 (u v : Vec3) : ℚ := u.x * v.x + u.y * v.y + u.z * v.z

/-- `np.cross` of two 3-vectors. -/
def cross3 (u v : Vec3) : Vec3 :=
  ⟨u.y * v.z - u.z * v.y, u.z * v.x - u.x * v.z, u.x * v.y - u.y * v.x⟩

/-- Fuel-driven integer square root (`⌊√n⌋` via the base-4 digit recursion);
structural in the fuel so that it evaluates by plain reduction. -/
def isqrtAux : ℕ → ℕ → ℕ
  | 0, _ => 0
  | fuel+1, n =>
    if n = 0 then 0 else
      let s := isqrtAux fuel (n / 4)
      if (2*s+1)*(2*s+1) ≤ n then 2*s+1 else 2*s

/-- Integer square root `⌊√n⌋`. -/
def isqrt (n : ℕ) : ℕ := isqrtAux n n

/-- Exact rational square root: the square root when the radicand is a
perfect square of a rational, `0` otherwise.  Used to instantiate the
abstract `sq` argument on concrete inputs whose norms are exact. -/
def qsqrt (q : ℚ) : ℚ :=
  let rn := isqrt q.num.toNat
  let rd := isqrt q.den
  if 0 ≤ q.num ∧ rn * rn = q.num.toNat ∧ rd * rd = q.den then
    (rn : ℚ) / (rd : ℚ)
  else 0

/-! ## Mesh data -/

/-- A tetrahedron: four node indices, as in `mesh_data['elements']`. -/
structure Tet4 where
  n0 : ℕ
  n1 : ℕ
  n2 : ℕ
  n3 : ℕ
deriving DecidableEq, Repr

/-- A surface triangle: three node indices. -/
structure Tri3 where
  t0 : ℕ
  t1 : ℕ
  t2 : ℕ
deriving DecidableEq, Repr

/-- Local vertex index `a` of a tetrahedron (`elem[a]` for `a in range(4)`). -/
def tetIdx (e : Tet4) : ℕ → ℕ
  | 0 => e.n0
  | 1 => e.n1
  | 2 => e.n2
  | _ => e.n3

/-- `self.nodes[i]` (out-of-range never occurs on valid meshes). -/
def nodeAt (nodes : List Vec3) (i : ℕ) : Vec3 := nodes.getD i vzero

/-- Millimeter coordinates converted to meters (`coords_mm * 1e-3`). -/
def nodeM (nodes : List Vec3) (i : ℕ) : Vec3 := smul (1/1000) (nodeAt nodes i)

/-! ## `_tet_shape_grads_and_volume` -/

/-- Gradients of the four linear shape functions and the volume, from
`_tet_shape_grads_and_volume`.  `J` has columns `x2-x1, x3-x1, x4-x1`;
`detJ` is the scalar triple product; the rows of `J^{-1}` are
`cross(c2,c3)/det, cross(c3,c1)/det, cross(c1,c2)/det`, and
`J^{-T} e_i` is the `i`-th row of `J^{-1}`, so the gradients are
`g1 = -(r1+r2+r3), g2 = r1, g3 = r2, g4 = r3`. -/
def tetGradsVol (x1 x2 x3 x4 : Vec3) : (Vec3 × Vec3 × Vec3 × Vec3) × ℚ :=
  let c1 := vsub x2 x1
  let c2 := vsub x3 x1
  let c3 := vsub x4 x1
  let d := dot3 c1 (cross3 c2 c3)
  let vol := |d| / 6
  if vol ≤ 1 / 10 ^ 20 then ((vzero, vzero, vzero, vzero), 0)
  else
    let r1 := smul (1 / d) (cross3 c2 c3)
    let r2 := smul (1 / d) (cross3 c3 c1)
    let r3 := smul (1 / d) (cross3 c1 c2)
    ((vneg (vadd r1 (vadd r2 r3)), r1, r2, r3), vol)

/-- Shape gradient of local vertex `a` from the result of `tetGradsVol`. -/
def gradIdx (g : Vec3 × Vec3 × Vec3 × Vec3) : ℕ → Vec3
  | 0 => g.1
  | 1 => g.2.1
  | 2 => g.2.2.1
  | _ => g.2.2.2

/-- `tetGradsVol` applied to an element of the mesh (meter coordinates). -/
def elemGV (nodes : List Vec3) (e : Tet4) : (Vec3 × Vec3 × Vec3 × Vec3) × ℚ :=
  tetGradsVol (nodeM nodes e.n0) (nodeM nodes e.n1) (nodeM nodes e.n2) (nodeM nodes e.n3)

/-- Raw element volume `|det J|/6` before the degeneracy cut-off. -/
def rawVol (nodes : List Vec3) (e : Tet4) : ℚ :=
  let c1 := vsub (nodeM nodes e.n1) (nodeM nodes e.n0)
  let c2 := vsub (nodeM nodes e.n2) (nodeM nodes e.n0)
  let c3 := vsub (nodeM nodes e.n3) (nodeM nodes e.n0)
  |dot3 c1 (cross3 c2 c3)| / 6

/-! ## `_assemble_matrices` -/

/-- One element's contribution to the global stiffness entry `K[i,j]`:
the inner double loop `for a in range(4): for b in range(4)` of
`_assemble_matrices`, with `Ke[a,b] = k_avg * vol * dot(grads[a], grads[b])`
accumulated at global indices `(elem[a], elem[b])`.  The guard
`if vol <= 0.0: continue` of the source is the `if` below. -/
def elemContribK (kavg : ℚ) (nodes : List Vec3) (e : Tet4) (i j : ℕ) : ℚ :=
  let gv := elemGV nodes e
  if gv.2 ≤ 0 then 0
  else
    ∑ a ∈ Finset.range 4, ∑ b ∈ Finset.range 4,
      if tetIdx e a = i ∧ tetIdx e b = j then
        kavg * gv.2 * dot3 (gradIdx gv.1 a) (gradIdx gv.1 b)
      else 0

/-- Global stiffness matrix entry `K[i,j]` of `_assemble_matrices`. -/
def Kmat (kavg : ℚ) (nodes : List Vec3) (elems : List Tet4) (i j : ℕ) : ℚ :=
  (elems.map fun e => elemContribK kavg nodes e i j).sum

/-- One element's contribution to the lumped mass diagonal `M[i,i]`:
`m_lump = rho * vol / 4` added at each of the four vertices. -/
def elemContribM (rho : ℚ) (nodes : List Vec3) (e : Tet4) (i : ℕ) : ℚ :=
  let gv := elemGV nodes e
  if gv.2 ≤ 0 then 0
  else
    ∑ a ∈ Finset.range 4, if tetIdx e a = i then rho * gv.2 / 4 else 0

/-- Lumped mass diagonal `M[i,i]` of `_assemble_matrices`. -/
def Mvec (rho : ℚ) (nodes : List Vec3) (elems : List Tet4) (i : ℕ) : ℚ :=
  (elems.map fun e => elemContribM rho nodes e i).sum

/-- Area of a surface triangle (meter coordinates):
`0.5 * np.linalg.norm(np.cross(p1 - p0, p2 - p0))`, with the norm
abstracted as `sq` applied to the squared norm. -/
def triArea (sq : ℚ → ℚ) (nodes : List Vec3) (t : Tri3) : ℚ :=
  let p0 := nodeM nodes t.t0
  let p1 := nodeM nodes t.t1
  let p2 := nodeM nodes t.t2
  let c := cross3 (vsub p1 p0) (vsub p2 p0)
  (1/2) * sq (dot3 c c)

/-- Per-node boundary convection area `node_bc_area[i]`: every surface
triangle adds `area / 3` to each of its vertices (repeated vertices are
counted with multiplicity, as the source loop does). -/
def bcArea (sq : ℚ → ℚ) (nodes : List Vec3) (tris : List Tri3) (i : ℕ) : ℚ :=
  (tris.map fun t =>
    (([t.t0, t.t1, t.t2].map fun v => if v = i then triArea sq nodes t / 3 else 0)).sum).sum

/-! ## Material table and solver construction (`MATERIALS`, `__init__`) -/

structure Material where
  name : String
  liquidus : ℚ
  solidus : ℚ
  density : ℚ
  k_liquid : ℚ
  k_solid : ℚ
  cp_liquid : ℚ
  cp_solid : ℚ
  latent_heat : ℚ
  shrinkage : ℚ
  niyama_critical : ℚ
deriving DecidableEq, Repr

def aluminumMat : Material :=
  { name := "Aluminum Alloy A356", liquidus := 615, solidus := 555,
    density := 2685, k_liquid := 95, k_solid := 180,
    cp_liquid := 1080, cp_solid := 960, latent_heat := 389000,
    shrinkage := 13/2, niyama_critical := 1 }

def steelMat : Material :=
  { name := "Carbon Steel", liquidus := 1495, solidus := 1450,
    density := 7850, k_liquid := 35, k_solid := 50,
    cp_liquid := 680, cp_solid := 490, latent_heat := 260000,
    shrinkage := 3, niyama_critical := 1/2 }

def MATERIALS : List (String × Material) :=
  [("aluminum", aluminumMat), ("steel", steelMat)]

def lookupMaterial (s : String) : Option Material :=
  (MATERIALS.find? fun p => p.1 = s).map Prod.snd

/-- The mesh-data dictionary handed to the constructor.  A missing key is
`none`; the Python truthiness test `not mesh_data` (empty dict) is
subsumed by the missing-key branches, since an empty dict has neither
`nodes` nor `elements`. -/
structure MeshData where
  nodes : Option (List Vec3)
  elements : Option (List Tet4)
  boundary_nodes : List ℕ
  surface_triangles : List Tri3

structure SolverState where
  material : Material
  material_name : String
  T_init : ℚ
  T_ambient : ℚ
  nodes : List Vec3
  elements : List Tet4
  boundary : List ℕ

/-- Construction-time validation of `ProfessionalSolidificationSolver.__init__`,
with the checks in source order: unknown material, initial temperature below
solidus, ambient at or above initial, ambient below zero, missing
`nodes`/`elements`, empty node list, empty element list, fewer than 4 nodes. -/
def solverInit (mesh : MeshData) (material : String)
    (initial_temp ambient_temp : ℚ) : Except String SolverState :=
  match lookupMaterial material with
  | none => .error "Unknown material"
  | some mat =>
    if initial_temp < mat.solidus then .error "Initial temperature below solidus"
    else if ambient_temp ≥ initial_temp then
      .error "Ambient temperature must be below initial temperature"
    else if ambient_temp < 0 then .error "Ambient temperature below absolute zero"
    else
      match mesh.nodes, mesh.elements with
      | none, _ => .error "Invalid mesh data: missing nodes or elements"
      | some _, none => .error "Invalid mesh data: missing nodes or elements"
      | some nds, some els =>
        if nds.length = 0 then .error "Mesh has no nodes"
        else if els.length = 0 then .error "Mesh has no elements"
        else if nds.length < 4 then .error "Mesh too small"
        else .ok
          { material := mat, material_name := material,
            T_init := initial_temp, T_ambient := ambient_temp,
            nodes := nds, elements := els, boundary := mesh.boundary_nodes }

/-! ## Phase model -/

/-- `_update_phase`: liquid fraction by the lever rule,
`np.clip((T - Ts)/(Tl - Ts), 0, 1)`. -/
def lfrac (mat : Material) (T : ℚ) : ℚ :=
  min (max ((T - mat.solidus) / (mat.liquidus - mat.solidus)) 0) 1

/-- The per-node effective capacity of `_solve_timestep`:
`cp_avg = 0.5*(cp_liquid + cp_solid)`, `dT_phase = max(Tl - Ts, 1e-6)`,
and `cp_avg + L/dT_phase` exactly on mushy nodes (`0 < lf < 1`). -/
def fenicsCeff (mat : Material) (lf : ℚ) : ℚ :=
  let cp_avg := (mat.cp_liquid + mat.cp_solid) / 2
  let dT_phase := max (mat.liquidus - mat.solidus) (1 / 10 ^ 6)
  if 0 < lf ∧ lf < 1 then cp_avg + mat.latent_heat / dT_phase else cp_avg

/-- `materials.effective_cp` of the secondary pipeline, verbatim:
`dfdT = -1.0 / max(Tliq - Tsol, 1e-9)` and `cp + L * dfdT` strictly inside
the band, else `cp`. -/
def effective_cp (T_val cp L Tsol Tliq : ℚ) : ℚ :=
  if Tsol < T_val ∧ T_val < Tliq then
    cp + L * (-1 / max (Tliq - Tsol) (1 / 10 ^ 9))
  else cp

/-! ## `_solve_timestep` as a relation on the assembled linear system -/

/-- The convective coefficient hard-coded in `_solve_timestep`. -/
def h_bc : ℚ := 300

/-- Entry `A[i,j]` of the per-step system of `_solve_timestep`:
mass contribution `M[i,i]*C_eff[i]/dt` on the diagonal (only when
`M[i,i] != 0`), plus the stiffness `K`, plus the Robin term `h*a[i]`
on the diagonal (only when `a[i] > 0`). -/
def Arow (K : ℕ → ℕ → ℚ) (M a C : ℕ → ℚ) (dt h : ℚ) (i j : ℕ) : ℚ :=
  (if i = j ∧ M i ≠ 0 then M i * C i / dt else 0) + K i j +
    (if i = j ∧ 0 < a i then h * a i else 0)

/-- Right-hand side `b[i]` of the per-step system of `_solve_timestep`. -/
def bval (M a C T : ℕ → ℚ) (dt h Tamb : ℚ) (i : ℕ) : ℚ :=
  (if M i ≠ 0 then M i * C i * T i / dt else 0) +
    (if 0 < a i then h * a i * Tamb else 0)

/-- Relational model of `spsolve`: `x` solves the `n`-by-`n` system. -/
def SolvesStep (n : ℕ) (A : ℕ → ℕ → ℚ) (b : ℕ → ℚ) (x : ℕ → ℚ) : Prop :=
  ∀ i < n, ((List.range n).map fun j => A i j * x j).sum = b i

instance (n A b x) : Decidable (SolvesStep n A b x) := by
  unfold SolvesStep; infer_instance

/-- The element-wise clamp `self.T = np.maximum(self.T, self.T_ambient)`
applied after the linear solve. -/
def clampAmb (Tamb : ℚ) (x : ℕ → ℚ) (i : ℕ) : ℚ := max (x i) Tamb

/-! ## `_compute_niyama` -/

/-- `_compute_niyama`: zero outside the mushy band `Ts <= T <= Tl`, and
`grad_T / (|cooling_rate| + 1e-6)` inside it. -/
def computeNiyama (mat : Material) (T gradT coolingRate : ℕ → ℚ) (i : ℕ) : ℚ :=
  if T i ≤ mat.liquidus ∧ mat.solidus ≤ T i then
    gradT i / (|coolingRate i| + 1 / 10 ^ 6)
  else 0

/-! ## `thermal_step.step_temperature` (secondary pipeline) -/

/-- `_tetra_volume` of `thermal_step.py` (raw millimeter coordinates,
no unit conversion). -/
def tetraVolume (c0 c1 c2 c3 : Vec3) : ℚ :=
  |dot3 (vsub c1 c0) (cross3 (vsub c2 c0) (vsub c3 c0))| / 6

/-- `vol_per_node[i]`: each element spreads its volume equally,
`share = vol / 4`, onto its four vertices. -/
def volPerNode (nodes : List Vec3) (elems : List Tet4) (i : ℕ) : ℚ :=
  (elems.map fun e =>
    let vol := tetraVolume (nodeAt nodes e.n0) (nodeAt nodes e.n1)
      (nodeAt nodes e.n2) (nodeAt nodes e.n3)
    (∑ a ∈ Finset.range 4, if tetIdx e a = i then vol / 4 else 0)).sum

/-- One element's contribution to the simple diffusion coupling of
`step_temperature`: for every ordered local pair `i != j`,
`A[ni,nj] += -k` and `A[ni,ni] += k`. -/
def elemContribDiff (kval : ℚ) (e : Tet4) (i j : ℕ) : ℚ :=
  ∑ p ∈ Finset.range 4, ∑ q ∈ Finset.range 4,
    if p ≠ q then
      (if tetIdx e p = i ∧ tetIdx e q = j then -kval else 0) +
        (if tetIdx e p = i ∧ tetIdx e p = j then kval else 0)
    else 0

/-- System matrix entry `A[i,j]` assembled by `step_temperature`:
lumped mass `rho * C_eff[i] * vol_per_node[i] / dt` on the diagonal,
diffusion coupling, and a Robin term `h` on each boundary node (the
boundary list is iterated with multiplicity, guarded by the Python
truthiness test on the list). -/
def tsArow (nodes : List Vec3) (elems : List Tet4) (bn : List ℕ)
    (Ceff : ℕ → ℚ) (rho kval dt h : ℚ) (i j : ℕ) : ℚ :=
  (if i = j then rho * Ceff i * volPerNode nodes elems i / dt else 0) +
    (elems.map fun e => elemContribDiff kval e i j).sum +
    (if bn ≠ [] then ((bn.map fun v => if v = i ∧ i = j then h else 0)).sum else 0)

/-- Right-hand side `b[i]` assembled by `step_temperature`. -/
def tsBval (nodes : List Vec3) (elems : List Tet4) (bn : List ℕ)
    (Ceff Tn : ℕ → ℚ) (rho dt h Tinf : ℚ) (i : ℕ) : ℚ :=
  rho * Ceff i * volPerNode nodes elems i * Tn i / dt +
    (if bn ≠ [] then ((bn.map fun v => if v = i then h * Tinf else 0)).sum else 0)

/-! ## `run_sim` derived fields (secondary pipeline) -/

/-- `_estimate_gradient_magnitude` of `simulate.py`, for one element:
`dT = max(Te) - min(Te)`, `size` is the largest pairwise distance between
the element's vertex coordinates (`np.linalg.norm` over all ordered pairs,
including the zero diagonal), and `g = dT / max(size, 1e-9)`. -/
def elemGradEstimate (sq : ℚ → ℚ) (nodes : List Vec3) (T : ℕ → ℚ) (e : Tet4) : ℚ :=
  let te := [T e.n0, T e.n1, T e.n2, T e.n3]
  let dT := (te.foldl max (T e.n0)) - (te.foldl min (T e.n0))
  let cs := [nodeAt nodes e.n0, nodeAt nodes e.n1, nodeAt nodes e.n2, nodeAt nodes e.n3]
  let dists := (cs.map fun p => (cs.map fun q => sq (dot3 (vsub p q) (vsub p q)))).flatten
  let size := dists.foldl max 0
  dT / max size (1 / 10 ^ 9)

/-- Per-node averaged gradient magnitude `G[i]` of
`_estimate_gradient_magnitude` (zero on nodes touching no element). -/
def estimateGradientMagnitude (sq : ℚ → ℚ) (nodes : List Vec3) (elems : List Tet4)
    (T : ℕ → ℚ) (i : ℕ) : ℚ :=
  let acc := (elems.map fun e =>
    (∑ a ∈ Finset.range 4, if tetIdx e a = i then elemGradEstimate sq nodes T e else 0)).sum
  let cnt := (elems.map fun e =>
    (∑ a ∈ Finset.range 4, if tetIdx e a = i then (1 : ℚ) else 0)).sum
  if 0 < cnt then acc / cnt else 0

/-- The per-step Niyama value computed at line 42 of `simulate.py`:
`niyama = G / (np.abs(cooling_rate) + 1e-9)` with
`cooling_rate = (T_new - T) / max(dt, 1e-9)` — note: computed for every
node, with no mushy-band mask. -/
def runSimStepNiyama (sq : ℚ → ℚ) (nodes : List Vec3) (elems : List Tet4)
    (dt : ℚ) (Tn T1 : ℕ → ℚ) (i : ℕ) : ℚ :=
  let cr := (T1 i - Tn i) / max dt (1 / 10 ^ 9)
  estimateGradientMagnitude sq nodes elems T1 i / (|cr| + 1 / 10 ^ 9)

/-! ## `hotspots.detect_hotspots` -/

/-- Minimum of a nonempty rational list (`np.min`; 0 on [] never used). -/
def listMin : List ℚ → ℚ
  | [] => 0
  | h :: t => t.foldl min h

/-- Maximum of a nonempty rational list (`np.max`). -/
def listMax : List ℚ → ℚ
  | [] => 0
  | h :: t => t.foldl max h

/-- Insertion into an ascending-sorted list; models one step of `np.sort`. -/
def insertSorted (x : ℚ) : List ℚ → List ℚ
  | [] => [x]
  | y :: ys => if x ≤ y then x :: y :: ys else y :: insertSorted x ys

/-- Ascending sort of the values (the semantics of `np.sort`). -/
def sortQ (l : List ℚ) : List ℚ := l.foldr insertSorted []

/-- `np.quantile(values, q)` with the default linear interpolation:
`pos = q*(n-1)`, `lo = floor(pos)`, and linear interpolation between the
sorted values at `lo` and `lo+1`. -/
def npQuantile (l : List ℚ) (q : ℚ) : ℚ :=
  let s := sortQ l
  let pos := q * ((s.length : ℚ) - 1)
  let lo := (Rat.floor pos).toNat
  let frac := pos - (Rat.floor pos : ℚ)
  let xlo := s.getD lo 0
  let xhi := s.getD (lo + 1) xlo
  xlo + frac * (xhi - xlo)

/-- One output cluster of `detect_hotspots`. -/
structure Cluster where
  id : ℕ
  indices : List ℕ
  centroid_index : ℕ
  severity : ℚ
deriving Repr

/-- Visit a 1-D neighbor `v` (as in `for v in (u-1, u+1)`): push it when
`0 <= v < size`, flagged and unvisited; `vis` is the visited set, `queue`
the work stack. -/
def tryVisit (mask : ℕ → Bool) (size : ℕ) (v : Int)
    (st : List ℕ × List ℕ) : List ℕ × List ℕ :=
  if 0 ≤ v ∧ v < (size : Int) ∧ mask v.toNat ∧ ¬ st.1.contains v.toNat then
    (st.1 ++ [v.toNat], st.2 ++ [v.toNat])
  else st

/-- The inner `while queue:` loop of `detect_hotspots`; `queue.pop()`
removes the last pushed element.  `fuel` bounds the iteration count; every
pop was preceded by a visited-marking push, so fuel `size` suffices. -/
def bfsLoop (mask : ℕ → Bool) (size : ℕ) :
    ℕ → List ℕ → List ℕ → List ℕ → List ℕ × List ℕ
  | 0, _, comp, vis => (comp, vis)
  | fuel + 1, queue, comp, vis =>
    match queue.getLast? with
    | none => (comp, vis)
    | some u =>
      let queue1 := queue.dropLast
      let st1 := tryVisit mask size ((u : Int) - 1) (vis, queue1)
      let st2 := tryVisit mask size ((u : Int) + 1) st1
      bfsLoop mask size fuel st2.2 (comp ++ [u]) st2.1

/-- Stable descending insertion by severity (Python's stable
`clusters.sort(key=severity, reverse=True)`). -/
def insertClusterDesc (c : Cluster) : List Cluster → List Cluster
  | [] => [c]
  | y :: ys => if y.severity ≥ c.severity then y :: insertClusterDesc c ys else c :: y :: ys

def sortClustersDesc (l : List Cluster) : List Cluster :=
  l.foldl (fun acc c => insertClusterDesc c acc) []

/-- `detect_hotspots(t_solid, niyama, alpha, beta)`: normalize both fields,
combine, threshold at the 85th percentile, then cluster flagged nodes by
1-D index adjacency (the `beta` argument is accepted and, as in the source,
never used). -/
def detectHotspots (t_solid niyama : List ℚ) (alpha beta : ℚ) : List Cluster :=
  let _ := beta
  let n := t_solid.length
  let tsmin := listMin t_solid
  let tsden := max (listMax t_solid - tsmin) (1 / 10 ^ 9)
  let ts := fun i => ((t_solid.getD i 0) - tsmin) / tsden
  let nmin := listMin niyama
  let nden := max (listMax niyama - nmin) (1 / 10 ^ 9)
  let nn := fun i => ((niyama.getD i 0) - nmin) / nden
  let score := fun i => alpha * ts i + (1 - alpha) * (1 - nn i)
  let thr := npQuantile ((List.range n).map score) (85 / 100)
  let mask := fun i => decide (thr ≤ score i)
  let indices := (List.range n).filter mask
  let step := fun (st : List Cluster × List ℕ) (idx : ℕ) =>
    if st.2.contains idx then st
    else
      let r := bfsLoop mask n n [idx] [] (st.2 ++ [idx])
      let comp := r.1
      let centroid := (Rat.floor (((comp.map fun u => (u : ℚ)).sum) / (comp.length : ℚ))).toNat
      let sev := ((comp.map score).sum) / (comp.length : ℚ)
      (st.1 ++ [{ id := st.1.length, indices := comp,
                  centroid_index := centroid, severity := sev }], r.2)
  let clusters := (indices.foldl step ([], [])).1
  sortClustersDesc clusters

/-! ## `gating.surface_candidates` -/

structure GateCand where
  point : Vec3
  normal : Vec3
  pad_diam : ℚ
  feeds_cluster_id : ℕ
deriving Repr

/-- Unit normal of a surface triangle as computed in `surface_candidates`:
`n / (np.linalg.norm(n) or 1.0)` (raw millimeter coordinates). -/
def gatingTriNormal (sq : ℚ → ℚ) (nodes : List Vec3) (t : Tri3) : Vec3 :=
  let p0 := nodeAt nodes t.t0
  let p1 := nodeAt nodes t.t1
  let p2 := nodeAt nodes t.t2
  let nvec := cross3 (vsub p1 p0) (vsub p2 p0)
  let nnorm := sq (dot3 nvec nvec)
  let d := if nnorm = 0 then 1 else nnorm
  smul (1 / d) nvec

/-- Accumulated per-vertex normal (`vertex_normal[vid] += n` over all
surface triangles, with vertex multiplicity). -/
def vertexNormalRaw (sq : ℚ → ℚ) (nodes : List Vec3) (tris : List Tri3) (i : ℕ) : Vec3 :=
  (tris.map fun t =>
    smul (([t.t0, t.t1, t.t2].count i : ℚ)) (gatingTriNormal sq nodes t)).foldl vadd vzero

/-- Per-vertex normal after the masked normalization
(`vertex_normal[mask] /= vn_norm[mask]`, `mask = vn_norm > 0`); a vertex
with zero accumulated normal keeps the zero vector. -/
def vertexNormalUnit (sq : ℚ → ℚ) (nodes : List Vec3) (tris : List Tri3) (i : ℕ) : Vec3 :=
  let v := vertexNormalRaw sq nodes tris i
  let m := sq (dot3 v v)
  if 0 < m then smul (1 / m) v else v

/-- Index of the first maximum of `t_solid` over the cluster's indices
(`indices[int(np.argmax(t_solid[indices]))]`). -/
def argmaxIdx (tsol : List ℚ) (indices : List ℕ) : ℕ :=
  match indices with
  | [] => 0
  | h :: t =>
    (t.foldl (fun best i =>
      if tsol.getD best 0 < tsol.getD i 0 then i else best) h)

/-- The 10-iteration 1-D gradient-ascent march of `surface_candidates`:
`next_idx = min(max(cand+1, 0), len(t_solid)-1)`; step while
`t_solid[next_idx] >= t_solid[cand]`, else break. -/
def marchLoop (tsol : List ℚ) : ℕ → ℕ → ℕ
  | 0, cand => cand
  | fuel + 1, cand =>
    let next := min (cand + 1) (tsol.length - 1)
    if tsol.getD cand 0 ≤ tsol.getD next 0 then marchLoop tsol fuel next else cand

/-- The gate candidate built for one cluster inside the loop of
`surface_candidates`: anchor at the cluster's `argmax` of `t_solid`, then
the 10-step march; the normal is the per-vertex normal at the marched index
when that index is within the node range, else the fixed upward vector. -/
def gateFor (sq : ℚ → ℚ) (nodes : List Vec3) (tris : List Tri3)
    (t_solid : List ℚ) (min_thickness : ℚ) (cl : Cluster) : GateCand :=
  let idx := argmaxIdx t_solid cl.indices
  let cand := marchLoop t_solid 10 idx
  let point := if cand < nodes.length then nodeAt nodes cand else nodeAt nodes idx
  let normal := if cand < nodes.length then vertexNormalUnit sq nodes tris cand
    else ⟨0, 0, 1⟩
  { point := point, normal := normal,
    pad_diam := max (min_thickness * (12 / 10)) 5,
    feeds_cluster_id := cl.id }

/-- `surface_candidates(mesh, t_solid, clusters, min_thickness)`:
one gate candidate per cluster. -/
def surfaceCandidates (sq : ℚ → ℚ) (nodes : List Vec3) (tris : List Tri3)
    (t_solid : List ℚ) (clusters : List Cluster) (min_thickness : ℚ) : List GateCand :=
  clusters.map (gateFor sq nodes tris t_solid min_thickness)

/-! ## `_analyze_defects` (hotspot list) -/

structure HotspotRec where
  node_id : ℕ
  location : Vec3
  temperature : ℚ
  severity : ℚ
deriving Repr

/-- `np.where(self.T > Tl)[0]`: the hotspot node indices, in ascending
index order. -/
def hotspotIndices (Tl : ℚ) (T : List ℚ) : List ℕ :=
  (List.range T.length).filter fun i => decide (Tl < T.getD i 0)

/-- The hotspot list of `_analyze_defects`: one record per hotspot index,
with `severity = (T - Tl)/(T_init - Tl)`, truncated by the `[:20]` slice. -/
def analyzeHotspots (mat : Material) (nodes : List Vec3) (Tinit : ℚ)
    (T : List ℚ) : List HotspotRec :=
  ((hotspotIndices mat.liquidus T).map fun i =>
    { node_id := i, location := nodeAt nodes i, temperature := T.getD i 0,
      severity := (T.getD i 0 - mat.liquidus) / (Tinit - mat.liquidus) }).take 20


/-! ## Concrete runs used as certificates

`cexNodes`/`cexElems`/`cexTris` is an 11-node mesh accepted by the solver:
a sliver tetrahedron `[0,1,2,3]` whose apex lies almost in the base plane
(giving the stiffness matrix a large positive off-diagonal entry
`K[0,3]`), a large-mass tetrahedron `[1,2,4,7]` holding nodes 1 and 2,
a large-mass tetrahedron `[0,8,9,10]` giving node 0 thermal mass, and one
large surface triangle `[3,5,6]` that pins node 3 near ambient.  All
norms the assembly takes on this mesh are perfect squares, so `qsqrt`
agrees with the floating-point square root here. -/

def cexNodes : List Vec3 :=
  [⟨0,0,0⟩, ⟨100,0,0⟩, ⟨0,100,0⟩, ⟨200,0,1/100⟩, ⟨0,0,10^6⟩,
   ⟨200+10^4,0,1/100⟩, ⟨200,10^4,1/100⟩, ⟨100,100,10^6⟩,
   ⟨-100,0,-10^6⟩, ⟨0,-100,-10^6⟩, ⟨-100,-100,-10^6⟩]

def cexElems : List Tet4 := [⟨0,1,2,3⟩, ⟨1,2,4,7⟩, ⟨0,8,9,10⟩]

def cexTris : List Tri3 := [⟨3,5,6⟩]

def cexMeshData : MeshData :=
  { nodes := some cexNodes, elements := some cexElems,
    boundary_nodes := [], surface_triangles := cexTris }

/-- Assembled stiffness of the certificate mesh, with the aluminum
averaged conductivity `(95 + 180)/2`. -/
def cexK : ℕ → ℕ → ℚ := Kmat (275/2) cexNodes cexElems

/-- Assembled lumped capacity of the certificate mesh (aluminum density). -/
def cexM : ℕ → ℚ := Mvec 2685 cexNodes cexElems

/-- Assembled boundary areas of the certificate mesh. -/
def cexA : ℕ → ℚ := bcArea qsqrt cexNodes cexTris

/-- Initial temperature field of the C1 run (`initial_temp = 700`). -/
def c1T0 : ℕ → ℚ := fun _ => 700

/-- Effective capacities of the first step of the C1 run, exactly as
`_update_phase` followed by `_solve_timestep` computes them. -/
def c1C : ℕ → ℚ := fun i => fenicsCeff aluminumMat (lfrac aluminumMat (c1T0 i))

/-- Initial temperature field of the C8 run (`initial_temp = 614`, inside the band). -/
def c8T0 : ℕ → ℚ := fun _ => 614

/-- Effective capacities of the first step of the C8 run. -/
def c8C1 : ℕ → ℚ := fun i => fenicsCeff aluminumMat (lfrac aluminumMat (c8T0 i))

/-- Exact solution of the step-1 linear system of the C1 run. -/
def cexT1 : List ℚ :=
  [((589765690950204282088802722582934312394030053491218998843797773134571796700 : ℚ)/610682622331554566776375771724513404702745522686569998348282533049388281),
   ((340115727225901093285460977732393241584833561659358998843797773134571796700 : ℚ)/610682622331554566776375771724513404702745522686569998348282533049388281),
   ((352552048798929540519788526058538006751453051680598998843797773134571796700 : ℚ)/610682622331554566776375771724513404702745522686569998348282533049388281),
   ((76997340228134825809894360541521877573266961878304761628329593134571796700 : ℚ)/610682622331554566776375771724513404702745522686569998348282533049388281),
   ((427477830743363418342602508715455335642196670269978998843797773134571796700 : ℚ)/610682622331554566776375771724513404702745522686569998348282533049388281),
   (25 : ℚ),
   (25 : ℚ),
   ((427477830743363418342602508715455335642196670269978998843797773134571796700 : ℚ)/610682622331554566776375771724513404702745522686569998348282533049388281),
   ((427477842501317988622801473694264284678413227284138998843797773134571796700 : ℚ)/610682622331554566776375771724513404702745522686569998348282533049388281),
   ((427477842501317988622801473694264284678413227284138998843797773134571796700 : ℚ)/610682622331554566776375771724513404702745522686569998348282533049388281),
   ((427477841448523139844309577358296037740097961677058998843797773134571796700 : ℚ)/610682622331554566776375771724513404702745522686569998348282533049388281)]

/-- Exact solution of the step-1 linear system of the C8 run. -/
def cexS1 : List ℚ :=
  [((144968053781755106218293782710309722457453282976654536772763863557760466378085270418 : ℚ)/202535060582934615751299316715318563174977230423448785913004338041955156967565587),
   ((110144113881479890505282782901610832557240767413453290266226263557760466378085270418 : ℚ)/202535060582934615751299316715318563174977230423448785913004338041955156967565587),
   ((117957413152236977481843860033618120242751213653063582518584663557760466378085270418 : ℚ)/202535060582934615751299316715318563174977230423448785913004338041955156967565587),
   ((62736867281066081450238619957468275889590669164824174231475476556040301578085270418 : ℚ)/202535060582934615751299316715318563174977230423448785913004338041955156967565587),
   ((124356527113517356333546355964239244315593893146392679688405463557760466378085270418 : ℚ)/202535060582934615751299316715318563174977230423448785913004338041955156967565587),
   (25 : ℚ),
   (25 : ℚ),
   ((124356527113517356333546355964239244315593893146392679688405463557760466378085270418 : ℚ)/202535060582934615751299316715318563174977230423448785913004338041955156967565587),
   ((124356527348519684842587442544487210043882878362300821323311063557760466378085270418 : ℚ)/202535060582934615751299316715318563174977230423448785913004338041955156967565587),
   ((124356527348519684842587442544487210043882878362300821323311063557760466378085270418 : ℚ)/202535060582934615751299316715318563174977230423448785913004338041955156967565587),
   ((124356527234344169159329252669624977958631618113332973089858263557760466378085270418 : ℚ)/202535060582934615751299316715318563174977230423448785913004338041955156967565587)]

/-- Exact solution of the step-2 linear system of the C8 run. -/
def cexS2 : List ℚ :=
  [((71044635560517159543731662213875386604088929637238281922590246109554786714541025273642228274475964102084361812206908118230369339377827692481627067271709475429298 : ℚ)/76679315128474335682445800600292336737352604897660091850169432658273780947013732213767626041118720214305304585291888104332371020867156297852812813146106637507),
   ((40224821776499225456549635355651030390795432206955988585398693550068958762266300928749623551536102736844223506889316314861074716068886515681627067271709475429298 : ℚ)/76679315128474335682445800600292336737352604897660091850169432658273780947013732213767626041118720214305304585291888104332371020867156297852812813146106637507),
   ((42662194491685537679100519147067879196720148109517106603540758350944172690228375454168669796687830541939604207827725476241362968780705966881627067271709475429298 : ℚ)/76679315128474335682445800600292336737352604897660091850169432658273780947013732213767626041118720214305304585291888104332371020867156297852812813146106637507),
   ((8063869176732831239526834295751586195353442417303159997201552462014840525546290351625936073149664893847206309796495028596964125921979734412566835890109475429298 : ℚ)/76679315128474335682445800600292336737352604897660091850169432658273780947013732213767626041118720214305304585291888104332371020867156297852812813146106637507),
   ((47081099410755857150832522222763110685509291673337237335383068736250074373790487550000075808207955797419726098970016704473637069154468241281627067271709475429298 : ℚ)/76679315128474335682445800600292336737352604897660091850169432658273780947013732213767626041118720214305304585291888104332371020867156297852812813146106637507),
   (25 : ℚ),
   (25 : ℚ),
   ((47081099410755857150832522222763110685509291673337237335383068736250074373790487550000075808207955797419726098970016704473637069154468241281627067271709475429298 : ℚ)/76679315128474335682445800600292336737352604897660091850169432658273780947013732213767626041118720214305304585291888104332371020867156297852812813146106637507),
   ((47081099709016008642667171981363485144650428391255798402786417724937303177245449397660272340726092528400475166616082072494467753273310542081627067271709475429298 : ℚ)/76679315128474335682445800600292336737352604897660091850169432658273780947013732213767626041118720214305304585291888104332371020867156297852812813146106637507),
   ((47081099709016008642667171981363485144650428391255798402786417724937303177245449397660272340726092528400475166616082072494467753273310542081627067271709475429298 : ℚ)/76679315128474335682445800600292336737352604897660091850169432658273780947013732213767626041118720214305304585291888104332371020867156297852812813146106637507),
   ((47081099568963191829830695525246395307085305384917169371983981287742064119069268717074539787539536799636634886500169109221736635370405391681627067271709475429298 : ℚ)/76679315128474335682445800600292336737352604897660091850169432658273780947013732213767626041118720214305304585291888104332371020867156297852812813146106637507)]


/-- Temperatures after the first accepted step of the C8 run
(the clamp is a no-op: every entry is at least 25). -/
def c8S1c : ℕ → ℚ := clampAmb 25 (fun i => cexS1.getD i 0)

/-- Effective capacities of the second step of the C8 run, recomputed by
`_update_phase` from the step-1 temperatures: nodes 2, 4, 7, 8, 9, 10 are
mushy, nodes 0 (above liquidus) and 1, 3 (below solidus) are not. -/
def c8C2 : ℕ → ℚ := fun i => fenicsCeff aluminumMat (lfrac aluminumMat (c8S1c i))

/-- Stored-energy sum of the claim, with the assembled lumped capacity
vector as the nodal capacity: the energy of the state `x` after clamping. -/
def cexEnergy (x : ℕ → ℚ) : ℚ :=
  ((List.range 11).map fun i => cexM i * (clampAmb 25 x i - 25)).sum

/-! Certificate run for C5, in the secondary pipeline: a single
tetrahedron with boundary node 0, alloy parameters
`rho = cp = k = h = dt = 1`, `T_inf = 300`, `T0 = 645` (above liquidus).
Every pairwise vertex distance that realizes the element size is exact. -/

def c5Nodes : List Vec3 := [⟨0,0,0⟩, ⟨12,0,0⟩, ⟨0,5,0⟩, ⟨0,0,16⟩]

def c5Elems : List Tet4 := [⟨0,1,2,3⟩]

def c5T0 : ℕ → ℚ := fun _ => 645

/-- Per-node effective capacity computed by `step_temperature` from the
(buggy) `effective_cp` of `materials.py`; at 645 (above liquidus) it is
just `cp = 1`. -/
def c5Ceff : ℕ → ℚ := fun i => effective_cp (c5T0 i) 1 350000 555 615

/-- Exact solution of the step-1 linear system of the C5 run. -/
def c5T1 : List ℚ := [1147500/1801, 1161300/1801, 1161300/1801, 1161300/1801]

/-! Certificate inputs for C4: eight nodes in two topologically
disconnected tetrahedra `[0,1,4,5]` and `[2,3,6,7]`; the flagged nodes
come out as `{0,1,2,3}`, with `{0,1}` and `{2,3}` sharing no element. -/

def c4TSolid : List ℚ := [1,1,1,1,0,0,0,0]

def c4Niyama : List ℚ := [0,0,0,0,1,1,1,1]

def c4Elems : List Tet4 := [⟨0,1,4,5⟩, ⟨2,3,6,7⟩]

/-- Whether a tetrahedron touches node group `{0,1}`. -/
def touchesLow (e : Tet4) : Prop := ∃ a < 4, tetIdx e a = 0 ∨ tetIdx e a = 1

/-- Whether a tetrahedron touches node group `{2,3}`. -/
def touchesHigh (e : Tet4) : Prop := ∃ a < 4, tetIdx e a = 2 ∨ tetIdx e a = 3

instance (e : Tet4) : Decidable (touchesLow e) := by unfold touchesLow; infer_instance

instance (e : Tet4) : Decidable (touchesHigh e) := by unfold touchesHigh; infer_instance

/-! Certificate inputs for C9: four nodes, an empty surface-triangle list
(so every vertex normal accumulates to the zero vector), one cluster whose
anchor is node 0. -/

def c9Nodes : List Vec3 := [⟨0,0,0⟩, ⟨1,0,0⟩, ⟨0,1,0⟩, ⟨0,0,1⟩]

def c9TSolid : List ℚ := [1, 0, 0, 0]

def c9Clusters : List Cluster :=
  [{ id := 0, indices := [0], centroid_index := 0, severity := 1 }]

/-! A well-shaped single-tetrahedron mesh with no surface triangles, used
to witness the general theorems on concrete inputs. -/

def wNodes : List Vec3 := [⟨0,0,0⟩, ⟨1,0,0⟩, ⟨0,1,0⟩, ⟨0,0,1⟩]

def wElems : List Tet4 := [⟨0,1,2,3⟩]

/-! ## Helper lemmas -/

lemma dot3_comm (u v : Vec3) : dot3 u v = dot3 v u := by
  unfold dot3; ring

lemma dot3_vadd_left (u v w : Vec3) : dot3 (vadd u v) w = dot3 u w + dot3 v w := by
  unfold dot3 vadd; ring

lemma dot3_vzero_left (w : Vec3) : dot3 vzero w = 0 := by
  unfold dot3 vzero; ring

/-- The four shape gradients of a tetrahedron sum to the zero vector
(constant functions have zero gradient); this also holds for the
degenerate branch, where all four gradients are zero. -/
lemma tetGrads_sum (x1 x2 x3 x4 : Vec3) :
    vadd (gradIdx (tetGradsVol x1 x2 x3 x4).1 0)
      (vadd (gradIdx (tetGradsVol x1 x2 x3 x4).1 1)
        (vadd (gradIdx (tetGradsVol x1 x2 x3 x4).1 2)
          (gradIdx (tetGradsVol x1 x2 x3 x4).1 3))) = vzero := by
  simp only [tetGradsVol]
  split
  · simp [gradIdx, vadd, vzero]
  · simp only [gradIdx, vadd, vneg, vzero, Vec3.mk.injEq]
    refine ⟨by ring, by ring, by ring⟩

/-- On a degenerate element (`raw volume <= 1e-20`) the gradient/volume
routine returns volume `0`. -/
lemma elemGV_degenerate (nodes : List Vec3) (e : Tet4)
    (h : rawVol nodes e ≤ 1 / 10 ^ 20) : (elemGV nodes e).2 = 0 := by
  simp only [elemGV, tetGradsVol]
  rw [if_pos]
  exact h

/-- On a non-skipped element the volume is positive (`|det|/6`, above the
tolerance). -/
lemma elemGV_nonneg (nodes : List Vec3) (e : Tet4) : 0 ≤ (elemGV nodes e).2 := by
  simp only [elemGV, tetGradsVol]
  split
  · exact le_refl 0
  · positivity

lemma vadd_vzero (v : Vec3) : vadd v vzero = v := by
  simp [vadd, vzero]

lemma smul_zero_vec (u : Vec3) : smul 0 u = vzero := by
  simp [smul, vzero]

lemma foldl_vadd_all_vzero (l : List Vec3) (acc : Vec3) (h : ∀ v ∈ l, v = vzero) :
    l.foldl vadd acc = acc := by
  induction l generalizing acc with
  | nil => rfl
  | cons hd tl ih =>
    rw [List.foldl_cons, h hd (List.mem_cons_self hd tl), vadd_vzero]
    exact ih acc fun v hv => h v (List.mem_cons_of_mem hd hv)

/-! ## C3 -/

/-- C3: the secondary pipeline's `effective_cp` contradicts the claim.
At `T = 600` strictly inside the band `(555, 615)` with `cp = 900` and
`L = 350000`, the claimed value is `cp + L/(Tliq - Tsol) = 20200/3 > cp`,
but the code computes `cp + L * (-1/(Tliq - Tsol)) = -14800/3`, which is
below `cp` (indeed a negative heat capacity), not strictly larger. -/
theorem C3_effective_cp_sign_bug :
    effective_cp 600 900 350000 555 615 = -14800 / 3 ∧
      effective_cp 600 900 350000 555 615 < 900 ∧
      (900 : ℚ) + 350000 / (615 - 555) = 20200 / 3 := by
  have hmax : max ((615 : ℚ) - 555) (1 / 10 ^ 9) = 60 := by
    rw [max_eq_left] <;> norm_num
  unfold effective_cp
  rw [if_pos (by norm_num), hmax]
  norm_num

/-! ## C10 -/

/-- C10: the defect report's hotspot list always has at most 20 records,
its node ids are exactly the first 20 hotspot indices, and the hotspot
index list is strictly ascending in node index (so the kept 20 are the
lowest-indexed hotspots, not the most severe ones). -/
theorem C10_hotspot_truncation (mat : Material) (nodes : List Vec3) (Tinit : ℚ)
    (T : List ℚ) :
    (analyzeHotspots mat nodes Tinit T).length ≤ 20 ∧
      (analyzeHotspots mat nodes Tinit T).map HotspotRec.node_id =
        (hotspotIndices mat.liquidus T).take 20 ∧
      List.Pairwise (· < ·) (hotspotIndices mat.liquidus T) := by
  refine ⟨?_, ?_, ?_⟩
  · unfold analyzeHotspots
    exact List.length_take_le 20 _
  · unfold analyzeHotspots
    rw [← List.map_take, List.map_map]
    have : (HotspotRec.node_id ∘ fun i =>
        ({ node_id := i, location := nodeAt nodes i, temperature := T.getD i 0,
           severity := (T.getD i 0 - mat.liquidus) / (Tinit - mat.liquidus) } : HotspotRec)) =
        fun i => i := rfl
    rw [this]
    exact List.map_id _
  · unfold hotspotIndices
    exact List.Pairwise.sublist (List.filter_sublist _) (List.pairwise_lt_range _)

/-! ## C5 -/

/-- C5 (amended): in the primary solver, `_compute_niyama` is exactly 0
outside the mushy band and equals `gradT/(|coolingRate| + 1e-6)` inside it,
with a strictly positive denominator (no division by zero).  The claim as
stated also covered the secondary pipeline's per-step Niyama, which is not
masked to the band — see the counterexample. -/
theorem C5_niyama_band_convention (mat : Material) (T gradT cr : ℕ → ℚ) (i : ℕ) :
    (mat.liquidus < T i ∨ T i < mat.solidus → computeNiyama mat T gradT cr i = 0) ∧
      (T i ≤ mat.liquidus → mat.solidus ≤ T i →
        computeNiyama mat T gradT cr i = gradT i / (|cr i| + 1 / 10 ^ 6) ∧
          0 < |cr i| + 1 / 10 ^ 6) := by
  unfold computeNiyama
  constructor
  · intro h
    rw [if_neg]
    rintro ⟨h1, h2⟩
    rcases h with h | h
    · exact absurd h1 (not_le.mpr h)
    · exact absurd h2 (not_le.mpr h)
  · intro h1 h2
    rw [if_pos ⟨h1, h2⟩]
    exact ⟨rfl, by positivity⟩

/-- Witness for C5's amended theorem at a node above liquidus. -/
theorem C5_niyama_band_convention_witness :
    aluminumMat.liquidus < 700 ∧
      computeNiyama aluminumMat (fun _ => 700) (fun _ => 1) (fun _ => 0) 0 = 0 :=
  ⟨by norm_num [aluminumMat],
    (C5_niyama_band_convention aluminumMat (fun _ => 700) (fun _ => 1) (fun _ => 0) 0).1
      (Or.inl (by norm_num [aluminumMat]))⟩

/-! ## C9 -/

/-- C9 (amended): when the marched node is in range but has no incident
surface triangle, the emitted gate normal is the zero vector — the fixed
upward fallback of the source applies only to an out-of-range marched
index, not to a node without incident triangles. -/
theorem C9_no_incident_triangle_zero_normal (sq : ℚ → ℚ) (nodes : List Vec3)
    (tris : List Tri3) (t_solid : List ℚ) (mt : ℚ) (cl : Cluster)
    (hsq : sq 0 = 0)
    (hcand : marchLoop t_solid 10 (argmaxIdx t_solid cl.indices) < nodes.length)
    (hinc : ∀ t ∈ tris,
      [t.t0, t.t1, t.t2].count (marchLoop t_solid 10 (argmaxIdx t_solid cl.indices)) = 0) :
    (gateFor sq nodes tris t_solid mt cl).normal = vzero := by
  have hraw : vertexNormalRaw sq nodes tris
      (marchLoop t_solid 10 (argmaxIdx t_solid cl.indices)) = vzero := by
    unfold vertexNormalRaw
    apply foldl_vadd_all_vzero
    intro v hv
    rcases List.mem_map.mp hv with ⟨t, ht, rfl⟩
    rw [hinc t ht]
    exact smul_zero_vec _
  have hunit : vertexNormalUnit sq nodes tris
      (marchLoop t_solid 10 (argmaxIdx t_solid cl.indices)) = vzero := by
    unfold vertexNormalUnit
    rw [hraw]
    have hd : dot3 vzero vzero = 0 := by simp [dot3, vzero]
    simp only [hd, hsq]
    exact if_neg (lt_irrefl 0)
  unfold gateFor
  simp only [if_pos hcand]
  exact hunit

unseal Rat.add Rat.mul Rat.inv Rat.sub Nat.gcd in
set_option maxRecDepth 2000 in
/-- Witness for C9's amended theorem: on the 4-node mesh with no surface
triangles, the cluster anchored at node 0 gets the zero normal. -/
theorem C9_no_incident_triangle_zero_normal_witness :
    qsqrt 0 = 0 ∧
      marchLoop c9TSolid 10 (argmaxIdx c9TSolid [0]) < c9Nodes.length ∧
      (gateFor qsqrt c9Nodes [] c9TSolid 5
        { id := 0, indices := [0], centroid_index := 0, severity := 1 }).normal = vzero :=
  ⟨by decide, by decide,
    C9_no_incident_triangle_zero_normal qsqrt c9Nodes [] c9TSolid 5
      { id := 0, indices := [0], centroid_index := 0, severity := 1 }
      (by decide) (by decide) (by intro t ht; simp at ht)⟩

unseal Rat.add Rat.mul Rat.inv Rat.sub Nat.gcd in
set_option maxRecDepth 2000 in
/-- C9 (counterexample): on a mesh with no surface triangles, the single
emitted gate candidate's normal is the zero vector — contradicting the
claim that a chosen node without incident surface triangles falls back to
a fixed upward vector and is never the zero vector. -/
theorem C9_counterexample :
    (surfaceCandidates qsqrt c9Nodes [] c9TSolid c9Clusters 5).map GateCand.normal
      = [vzero] := by
  decide

/-! ## C4 -/

unseal Rat.add Rat.mul Rat.inv Rat.sub Nat.gcd in
set_option maxRecDepth 2000 in
/-- C4: `detect_hotspots` clusters by 1-D array-index adjacency, not mesh
adjacency (it does not even receive the mesh).  On 8 nodes whose flagged
set is `{0,1,2,3}`, with the mesh consisting of the two disconnected
tetrahedra `[0,1,4,5]` and `[2,3,6,7]` (so the flagged groups `{0,1}` and
`{2,3}` share no tetrahedron and there are no surface triangles), the
claim requires exactly two clusters; the code returns one. -/
theorem C4_index_adjacency_code_bug :
    (∀ e ∈ c4Elems, ¬ (touchesLow e ∧ touchesHigh e)) ∧
      (detectHotspots c4TSolid c4Niyama (85 / 100) (15 / 100)).length = 1 := by
  constructor
  · decide
  · decide

/-! ## C1 -/

/-- C1 (amended): after the linear solve of a timestep, the element-wise
clamp guarantees the lower bound `ambient <= T` at every node, and leaves
the solved value unchanged whenever it already satisfies the bound.  The
upper bound `T <= max(initial, ambient)` of the claim is not guaranteed —
see the counterexample. -/
theorem C1_clamp_lower_bound (n : ℕ) (A : ℕ → ℕ → ℚ) (b x : ℕ → ℚ) (Tamb : ℚ)
    (_hx : SolvesStep n A b x) (i : ℕ) :
    Tamb ≤ clampAmb Tamb x i ∧ (Tamb ≤ x i → clampAmb Tamb x i = x i) :=
  ⟨le_max_right _ _, fun h => max_eq_left h⟩

/-! ## C6 -/

/-- C6: construction succeeds exactly when the material is in the table,
the initial temperature is at least that material's solidus, the ambient
is strictly below the initial and non-negative, the mesh carries a
non-empty node list of length at least 4 and a non-empty element list;
a violation of any of these is reported as an error before any
computation. -/
theorem C6_construction_validation (mesh : MeshData) (material : String)
    (Ti Ta : ℚ) :
    (solverInit mesh material Ti Ta).isOk = true ↔
      ((∃ m, lookupMaterial material = some m ∧ m.solidus ≤ Ti) ∧
        Ta < Ti ∧ 0 ≤ Ta ∧
        (∃ nds, mesh.nodes = some nds ∧ nds ≠ [] ∧ 4 ≤ nds.length) ∧
        (∃ els, mesh.elements = some els ∧ els ≠ [])) := by
  unfold solverInit
  cases hm : lookupMaterial material with
  | none => simp [Except.isOk, Except.toBool]
  | some mat =>
    cases hn : mesh.nodes with
    | none =>
      simp only [hn, Except.isOk, Except.toBool]
      split_ifs <;> simp
    | some nds =>
      cases he : mesh.elements with
      | none =>
        simp only [hn, he, Except.isOk, Except.toBool]
        split_ifs <;> simp
      | some els =>
        simp only [hn, he, Except.isOk, Except.toBool]
        split_ifs with h1 h2 h3 h4 h5 h6 <;> simp_all

unseal Rat.add Rat.mul Rat.inv Rat.sub Nat.gcd in
set_option maxRecDepth 2000 in
/-- Witness for C1's amended theorem on a concrete 1-by-1 system. -/
theorem C1_clamp_lower_bound_witness :
    SolvesStep 1 (fun _ _ => 1) (fun _ => 5) (fun _ => 5) ∧
      (25 : ℚ) ≤ clampAmb 25 (fun _ => 5) 0 :=
  ⟨by decide,
    (C1_clamp_lower_bound 1 (fun _ _ => 1) (fun _ => 5) (fun _ => 5) 25 (by decide) 0).1⟩

/-! ## C2 -/


lemma elemContribK_symm (kavg : ℚ) (nodes : List Vec3) (e : Tet4) (i j : ℕ) :
    elemContribK kavg nodes e i j = elemContribK kavg nodes e j i := by
  unfold elemContribK
  rcases le_or_lt (elemGV nodes e).2 0 with h | h
  · simp [if_pos h]
  · simp only [if_neg (not_le.mpr h)]
    rw [Finset.sum_comm]
    refine Finset.sum_congr rfl fun b _ => Finset.sum_congr rfl fun a _ => ?_
    exact if_congr and_comm (by rw [dot3_comm]) rfl

lemma double_indicator_collapse (n ia ib : ℕ) (c : ℚ) (x : ℕ → ℚ)
    (hia : ia < n) (hib : ib < n) :
    (∑ i ∈ Finset.range n, ∑ j ∈ Finset.range n,
      if ia = i then (if ib = j then x i * c * x j else 0) else 0) = x ia * c * x ib := by
  have h1 : ∀ i, (∑ j ∈ Finset.range n,
      if ia = i then (if ib = j then x i * c * x j else 0) else 0)
      = if ia = i then x i * c * x ib else 0 := by
    intro i
    by_cases hi : ia = i
    · simp only [if_pos hi, Finset.sum_ite_eq, Finset.mem_range, if_pos hib]
    · simp [if_neg hi]
  simp only [h1, Finset.sum_ite_eq, Finset.mem_range, if_pos hia]

lemma elemContribK_quad_nonneg (kavg : ℚ) (nodes : List Vec3) (e : Tet4) (n : ℕ)
    (hk : 0 ≤ kavg) (hv : ∀ a, tetIdx e a < n) (x : ℕ → ℚ) :
    0 ≤ ∑ i ∈ Finset.range n, ∑ j ∈ Finset.range n,
        x i * elemContribK kavg nodes e i j * x j := by
  unfold elemContribK
  rcases le_or_lt (elemGV nodes e).2 0 with h | h
  · simp [if_pos h]
  · simp only [if_neg (not_le.mpr h)]
    simp only [Finset.sum_range_succ, Finset.sum_range_zero, zero_add]
    simp only [mul_add, add_mul, Finset.sum_add_distrib]
    simp only [ite_and, mul_ite, ite_mul, mul_zero, zero_mul]
    simp only [double_indicator_collapse, hv]
    simp only [dot3]
    nlinarith [mul_nonneg (mul_nonneg hk h.le)
        (sq_nonneg (x (tetIdx e 0) * (gradIdx (elemGV nodes e).1 0).x +
          x (tetIdx e 1) * (gradIdx (elemGV nodes e).1 1).x +
          x (tetIdx e 2) * (gradIdx (elemGV nodes e).1 2).x +
          x (tetIdx e 3) * (gradIdx (elemGV nodes e).1 3).x)),
      mul_nonneg (mul_nonneg hk h.le)
        (sq_nonneg (x (tetIdx e 0) * (gradIdx (elemGV nodes e).1 0).y +
          x (tetIdx e 1) * (gradIdx (elemGV nodes e).1 1).y +
          x (tetIdx e 2) * (gradIdx (elemGV nodes e).1 2).y +
          x (tetIdx e 3) * (gradIdx (elemGV nodes e).1 3).y)),
      mul_nonneg (mul_nonneg hk h.le)
        (sq_nonneg (x (tetIdx e 0) * (gradIdx (elemGV nodes e).1 0).z +
          x (tetIdx e 1) * (gradIdx (elemGV nodes e).1 1).z +
          x (tetIdx e 2) * (gradIdx (elemGV nodes e).1 2).z +
          x (tetIdx e 3) * (gradIdx (elemGV nodes e).1 3).z))]



lemma tetIdx_lt_of_bounded (e : Tet4) (n : ℕ) (h : ∀ a < 4, tetIdx e a < n) :
    ∀ a, tetIdx e a < n := by
  intro a
  match a with
  | 0 => exact h 0 (by omega)
  | 1 => exact h 1 (by omega)
  | 2 => exact h 2 (by omega)
  | (x + 3) => exact h 3 (by omega)

lemma elemContribM_nonneg (rho : ℚ) (nodes : List Vec3) (e : Tet4) (i : ℕ)
    (hρ : 0 ≤ rho) : 0 ≤ elemContribM rho nodes e i := by
  unfold elemContribM
  rcases le_or_lt (elemGV nodes e).2 0 with h | h
  · simp [if_pos h]
  · simp only [if_neg (not_le.mpr h)]
    refine Finset.sum_nonneg fun a _ => ?_
    split
    · positivity
    · exact le_refl 0

lemma elemContribK_degenerate (kavg : ℚ) (nodes : List Vec3) (e : Tet4)
    (hd : rawVol nodes e ≤ 1 / 10 ^ 20) (i j : ℕ) :
    elemContribK kavg nodes e i j = 0 := by
  unfold elemContribK
  rw [if_pos]
  rw [elemGV_degenerate nodes e hd]

lemma elemContribM_degenerate (rho : ℚ) (nodes : List Vec3) (e : Tet4)
    (hd : rawVol nodes e ≤ 1 / 10 ^ 20) (i : ℕ) :
    elemContribM rho nodes e i = 0 := by
  unfold elemContribM
  rw [if_pos]
  rw [elemGV_degenerate nodes e hd]

lemma Kmat_symm (kavg : ℚ) (nodes : List Vec3) (elems : List Tet4) (i j : ℕ) :
    Kmat kavg nodes elems i j = Kmat kavg nodes elems j i := by
  unfold Kmat
  induction elems with
  | nil => rfl
  | cons hd tl ih =>
    simp only [List.map_cons, List.sum_cons]
    rw [elemContribK_symm, ih]

lemma Kmat_quad_nonneg (kavg : ℚ) (nodes : List Vec3) (elems : List Tet4)
    (n : ℕ) (hk : 0 ≤ kavg)
    (hval : ∀ e ∈ elems, ∀ a < 4, tetIdx e a < n) (x : ℕ → ℚ) :
    0 ≤ ∑ i ∈ Finset.range n, ∑ j ∈ Finset.range n,
        x i * Kmat kavg nodes elems i j * x j := by
  unfold Kmat
  induction elems with
  | nil => simp
  | cons hd tl ih =>
    simp only [List.map_cons, List.sum_cons]
    simp only [mul_add, add_mul, Finset.sum_add_distrib]
    have h1 := elemContribK_quad_nonneg kavg nodes hd n hk
      (tetIdx_lt_of_bounded hd n (hval hd (List.mem_cons_self hd tl))) x
    have h2 := ih fun e he => hval e (List.mem_cons_of_mem hd he)
    linarith

lemma Mvec_nonneg (rho : ℚ) (nodes : List Vec3) (elems : List Tet4) (i : ℕ)
    (hρ : 0 ≤ rho) : 0 ≤ Mvec rho nodes elems i := by
  unfold Mvec
  induction elems with
  | nil => simp
  | cons hd tl ih =>
    simp only [List.map_cons, List.sum_cons]
    have h1 := elemContribM_nonneg rho nodes hd i hρ
    linarith

/-- C2: for every mesh whose element node indices are all below the node
count, and any non-negative conductivity and density (as in the material
table), the assembled conductance matrix is symmetric and positive
semi-definite and the lumped capacity vector is non-negative; moreover any
element whose raw volume is at or below the `1e-20` tolerance contributes
nothing to either operator (it is skipped, and no error is possible: the
assembly is a total function). -/
theorem C2_assembly_properties (kavg rho : ℚ) (nodes : List Vec3)
    (elems : List Tet4) (n : ℕ) (hk : 0 ≤ kavg) (hρ : 0 ≤ rho)
    (hval : ∀ e ∈ elems, ∀ a < 4, tetIdx e a < n) :
    (∀ i j, Kmat kavg nodes elems i j = Kmat kavg nodes elems j i) ∧
      (∀ x : ℕ → ℚ, 0 ≤ ∑ i ∈ Finset.range n, ∑ j ∈ Finset.range n,
          x i * Kmat kavg nodes elems i j * x j) ∧
      (∀ i, 0 ≤ Mvec rho nodes elems i) ∧
      (∀ e, rawVol nodes e ≤ 1 / 10 ^ 20 →
        (∀ i j, Kmat kavg nodes (e :: elems) i j = Kmat kavg nodes elems i j) ∧
          (∀ i, Mvec rho nodes (e :: elems) i = Mvec rho nodes elems i)) := by
  refine ⟨Kmat_symm kavg nodes elems,
    Kmat_quad_nonneg kavg nodes elems n hk hval,
    fun i => Mvec_nonneg rho nodes elems i hρ, ?_⟩
  intro e hd
  constructor
  · intro i j
    unfold Kmat
    simp only [List.map_cons, List.sum_cons, elemContribK_degenerate kavg nodes e hd,
      zero_add]
  · intro i
    unfold Mvec
    simp only [List.map_cons, List.sum_cons, elemContribM_degenerate rho nodes e hd,
      zero_add]

/-- Witness for C2 on a concrete single-tetrahedron mesh with the aluminum
constants. -/
theorem C2_assembly_properties_witness :
    (0 : ℚ) ≤ 275 / 2 ∧ (0 : ℚ) ≤ 2685 ∧ (∀ e ∈ wElems, ∀ a < 4, tetIdx e a < 4) ∧
      (∀ i j, Kmat (275 / 2) wNodes wElems i j = Kmat (275 / 2) wNodes wElems j i) :=
  ⟨by norm_num, by norm_num, by decide,
    (C2_assembly_properties (275 / 2) 2685 wNodes wElems 4 (by norm_num) (by norm_num)
      (by decide)).1⟩




lemma elemGV_grads_sum (nodes : List Vec3) (e : Tet4) :
    vadd (gradIdx (elemGV nodes e).1 0)
      (vadd (gradIdx (elemGV nodes e).1 1)
        (vadd (gradIdx (elemGV nodes e).1 2) (gradIdx (elemGV nodes e).1 3))) = vzero :=
  tetGrads_sum _ _ _ _

lemma elemContribK_colsum (kavg : ℚ) (nodes : List Vec3) (e : Tet4) (n j : ℕ)
    (hv : ∀ a, tetIdx e a < n) :
    ∑ i ∈ Finset.range n, elemContribK kavg nodes e i j = 0 := by
  unfold elemContribK
  rcases le_or_lt (elemGV nodes e).2 0 with h | h
  · simp [if_pos h]
  · simp only [if_neg (not_le.mpr h)]
    simp only [ite_and]
    rw [Finset.sum_comm]
    have step : ∀ a ∈ Finset.range 4,
        (∑ i ∈ Finset.range n, ∑ b ∈ Finset.range 4,
          if tetIdx e a = i then
            (if tetIdx e b = j then
              kavg * (elemGV nodes e).2 *
                dot3 (gradIdx (elemGV nodes e).1 a) (gradIdx (elemGV nodes e).1 b)
            else 0)
          else 0)
        = ∑ b ∈ Finset.range 4,
            (if tetIdx e b = j then
              kavg * (elemGV nodes e).2 *
                dot3 (gradIdx (elemGV nodes e).1 a) (gradIdx (elemGV nodes e).1 b)
            else 0) := by
      intro a _
      rw [Finset.sum_comm]
      refine Finset.sum_congr rfl fun b _ => ?_
      rw [Finset.sum_ite_eq, if_pos (Finset.mem_range.mpr (hv a))]
    rw [Finset.sum_congr rfl step, Finset.sum_comm]
    refine Finset.sum_eq_zero fun b _ => ?_
    rw [Finset.sum_ite_irrel, Finset.sum_const_zero]
    split
    · simp only [Finset.sum_range_succ, Finset.sum_range_zero, zero_add]
      have hzero : dot3 (gradIdx (elemGV nodes e).1 0) (gradIdx (elemGV nodes e).1 b) +
          dot3 (gradIdx (elemGV nodes e).1 1) (gradIdx (elemGV nodes e).1 b) +
          dot3 (gradIdx (elemGV nodes e).1 2) (gradIdx (elemGV nodes e).1 b) +
          dot3 (gradIdx (elemGV nodes e).1 3) (gradIdx (elemGV nodes e).1 b) = 0 := by
        have hc := congrArg (fun v => dot3 v (gradIdx (elemGV nodes e).1 b))
          (elemGV_grads_sum nodes e)
        simp only [dot3_vadd_left, dot3_vzero_left] at hc
        linarith
      linear_combination (kavg * (elemGV nodes e).2) * hzero
    · rfl

lemma Kmat_colsum (kavg : ℚ) (nodes : List Vec3) (elems : List Tet4) (n j : ℕ)
    (hval : ∀ e ∈ elems, ∀ q < 4, tetIdx e q < n) :
    ∑ i ∈ Finset.range n, Kmat kavg nodes elems i j = 0 := by
  unfold Kmat
  induction elems with
  | nil => simp
  | cons hd tl ih =>
    simp only [List.map_cons, List.sum_cons, Finset.sum_add_distrib]
    rw [elemContribK_colsum kavg nodes hd n j
      (tetIdx_lt_of_bounded hd n (hval hd (List.mem_cons_self hd tl))),
      ih (fun e he => hval e (List.mem_cons_of_mem hd he)), add_zero]

lemma list_range_sum (n : ℕ) (f : ℕ → ℚ) :
    ((List.range n).map f).sum = ∑ i ∈ Finset.range n, f i := by
  induction n with
  | zero => rfl
  | succ m ih =>
    rw [List.range_succ, List.map_append, List.sum_append, Finset.sum_range_succ, ih]
    simp



/-- C8 (amended): across one implicit timestep whose solved temperatures
all stay at or above ambient (so the clamp is inactive) and whose nodes all
carry one common effective capacity `c` for that step, the stored energy
`sum of M[i] * (T[i] - ambient)` with the assembled lumped capacity as
nodal capacity is non-increasing.  With phase-dependent mixed capacities
the energy can increase — see the counterexample. -/
theorem C8_energy_balance (kavg rho : ℚ) (nodes : List Vec3) (elems : List Tet4)
    (n : ℕ) (a C T x : ℕ → ℚ) (c dt Tamb h : ℚ)
    (hval : ∀ e ∈ elems, ∀ q < 4, tetIdx e q < n)
    (ha : ∀ i, 0 ≤ a i) (hh : 0 ≤ h)
    (hC : ∀ i, C i = c) (hc : 0 < c) (hdt : 0 < dt)
    (hx : SolvesStep n (Arow (Kmat kavg nodes elems) (Mvec rho nodes elems) a C dt h)
      (bval (Mvec rho nodes elems) a C T dt h Tamb) x)
    (hamb : ∀ i < n, Tamb ≤ x i) :
    ∑ i ∈ Finset.range n, Mvec rho nodes elems i * (clampAmb Tamb x i - Tamb) ≤
      ∑ i ∈ Finset.range n, Mvec rho nodes elems i * (T i - Tamb) := by
  classical
  set M := Mvec rho nodes elems with hM
  -- the clamp is inactive
  have hclamp : ∀ i ∈ Finset.range n, M i * (clampAmb Tamb x i - Tamb)
      = M i * (x i - Tamb) := by
    intro i hi
    rw [clampAmb, max_eq_left (hamb i (Finset.mem_range.mp hi))]
  rw [Finset.sum_congr rfl hclamp]
  -- guards of the diagonal terms are removable
  have g2' : ∀ i (v : ℚ), (if 0 < a i then h * a i * v else 0) = h * a i * v := by
    intro i v
    rcases (ha i).eq_or_lt with he | hl
    · rw [if_neg (by rw [← he]; exact lt_irrefl 0), ← he, mul_zero, zero_mul]
    · rw [if_pos hl]
  -- each row of the solved system, expanded
  have hexp : ∀ i ∈ Finset.range n,
      M i * C i / dt * x i + ((∑ j ∈ Finset.range n, Kmat kavg nodes elems i j * x j)
        + h * a i * x i)
      = M i * C i * T i / dt + h * a i * Tamb := by
    intro i hi
    have hrow := hx i (Finset.mem_range.mp hi)
    rw [list_range_sum] at hrow
    unfold Arow bval at hrow
    simp only [add_mul, Finset.sum_add_distrib, ite_mul, zero_mul, ite_and] at hrow
    rw [Finset.sum_ite_eq, Finset.sum_ite_eq, if_pos hi, if_pos hi] at hrow
    have e1 : (if M i ≠ 0 then M i * C i / dt * x i else 0) = M i * C i / dt * x i := by
      by_cases hm : M i = 0
      · simp [hm]
      · simp [hm]
    have e2 : (if M i ≠ 0 then M i * C i * T i / dt else 0) = M i * C i * T i / dt := by
      by_cases hm : M i = 0
      · simp [hm]
      · simp [hm]
    rw [e1, e2, g2' i (x i), g2' i Tamb] at hrow
    linarith [hrow]
  have htot := Finset.sum_congr rfl hexp
  rw [Finset.sum_add_distrib, Finset.sum_add_distrib, Finset.sum_add_distrib] at htot
  -- the stiffness block sums to zero, column by column
  have hK : (∑ i ∈ Finset.range n, ∑ j ∈ Finset.range n,
      Kmat kavg nodes elems i j * x j) = 0 := by
    rw [Finset.sum_comm]
    refine Finset.sum_eq_zero fun j _ => ?_
    rw [← Finset.sum_mul, Kmat_colsum kavg nodes elems n j hval, zero_mul]
  rw [hK, zero_add] at htot
  -- factor out the common capacity
  have hfac1 : ∀ i ∈ Finset.range n, M i * C i / dt * x i = c / dt * (M i * x i) := by
    intro i _
    rw [hC i]; ring
  have hfac2 : ∀ i ∈ Finset.range n, M i * C i * T i / dt = c / dt * (M i * T i) := by
    intro i _
    rw [hC i]; ring
  rw [Finset.sum_congr rfl hfac1, Finset.sum_congr rfl hfac2, ← Finset.mul_sum,
    ← Finset.mul_sum] at htot
  -- the boundary exchange is a net loss
  have hloss : ∑ i ∈ Finset.range n, h * a i * Tamb ≤
      ∑ i ∈ Finset.range n, h * a i * x i := by
    refine Finset.sum_le_sum fun i hi => ?_
    have hxi := hamb i (Finset.mem_range.mp hi)
    have : 0 ≤ h * a i := mul_nonneg hh (ha i)
    nlinarith
  have hcdt : 0 < c / dt := div_pos hc hdt
  have hMx : ∑ i ∈ Finset.range n, M i * x i ≤ ∑ i ∈ Finset.range n, M i * T i := by
    have h1 : c / dt * (∑ i ∈ Finset.range n, M i * x i) ≤
        c / dt * (∑ i ∈ Finset.range n, M i * T i) := by linarith
    exact le_of_mul_le_mul_left h1 hcdt
  -- conclude for the shifted energies
  have hsub : ∀ (y : ℕ → ℚ), ∑ i ∈ Finset.range n, M i * (y i - Tamb)
      = (∑ i ∈ Finset.range n, M i * y i) - ∑ i ∈ Finset.range n, M i * Tamb := by
    intro y
    rw [← Finset.sum_sub_distrib]
    refine Finset.sum_congr rfl fun i _ => by ring
  rw [hsub x, hsub T]
  linarith


/-! ## C8 witness and the C1/C8 counterexample runs -/

unseal Rat.add Rat.mul Rat.inv Rat.sub Nat.gcd in
set_option maxRecDepth 2000 in
/-- Witness for C8's amended theorem: a uniform-temperature step on a
regular tetrahedron with no boundary area solves the system exactly and
the energy does not increase. -/
theorem C8_energy_balance_witness :
    SolvesStep 4 (Arow (Kmat (275/2) wNodes wElems) (Mvec 2685 wNodes wElems)
        (fun _ => 0) (fun _ => 1020) 600 h_bc)
      (bval (Mvec 2685 wNodes wElems) (fun _ => 0) (fun _ => 1020) (fun _ => 700) 600 h_bc 25)
      (fun _ => 700) ∧
    (∑ i ∈ Finset.range 4, Mvec 2685 wNodes wElems i *
        (clampAmb 25 (fun _ => 700) i - 25) ≤
      ∑ i ∈ Finset.range 4, Mvec 2685 wNodes wElems i * ((fun _ => (700:ℚ)) i - 25)) :=
  ⟨by decide,
    C8_energy_balance (275/2) 2685 wNodes wElems 4 (fun _ => 0) (fun _ => 1020)
      (fun _ => 700) (fun _ => 700) 1020 600 25 h_bc (by decide) (fun _ => le_refl 0)
      (by norm_num [h_bc]) (fun _ => rfl) (by norm_num) (by norm_num) (by decide)
      (fun i _ => by norm_num)⟩

unseal Rat.add Rat.mul Rat.inv Rat.sub Nat.gcd in
set_option maxRecDepth 2000 in
lemma c1r0 : ((List.range 11).map fun j =>
    Arow cexK cexM cexA c1C 600 h_bc 0 j * (fun i => cexT1.getD i 0) j).sum
    = bval cexM cexA c1C c1T0 600 h_bc 25 0 := by decide

unseal Rat.add Rat.mul Rat.inv Rat.sub Nat.gcd in
set_option maxRecDepth 2000 in
lemma c1r1 : ((List.range 11).map fun j =>
    Arow cexK cexM cexA c1C 600 h_bc 1 j * (fun i => cexT1.getD i 0) j).sum
    = bval cexM cexA c1C c1T0 600 h_bc 25 1 := by decide

unseal Rat.add Rat.mul Rat.inv Rat.sub Nat.gcd in
set_option maxRecDepth 2000 in
lemma c1r2 : ((List.range 11).map fun j =>
    Arow cexK cexM cexA c1C 600 h_bc 2 j * (fun i => cexT1.getD i 0) j).sum
    = bval cexM cexA c1C c1T0 600 h_bc 25 2 := by decide

unseal Rat.add Rat.mul Rat.inv Rat.sub Nat.gcd in
set_option maxRecDepth 2000 in
lemma c1r3 : ((List.range 11).map fun j =>
    Arow cexK cexM cexA c1C 600 h_bc 3 j * (fun i => cexT1.getD i 0) j).sum
    = bval cexM cexA c1C c1T0 600 h_bc 25 3 := by decide

unseal Rat.add Rat.mul Rat.inv Rat.sub Nat.gcd in
set_option maxRecDepth 2000 in
lemma c1r4 : ((List.range 11).map fun j =>
    Arow cexK cexM cexA c1C 600 h_bc 4 j * (fun i => cexT1.getD i 0) j).sum
    = bval cexM cexA c1C c1T0 600 h_bc 25 4 := by decide

unseal Rat.add Rat.mul Rat.inv Rat.sub Nat.gcd in
set_option maxRecDepth 2000 in
lemma c1r5 : ((List.range 11).map fun j =>
    Arow cexK cexM cexA c1C 600 h_bc 5 j * (fun i => cexT1.getD i 0) j).sum
    = bval cexM cexA c1C c1T0 600 h_bc 25 5 := by decide

unseal Rat.add Rat.mul Rat.inv Rat.sub Nat.gcd in
set_option maxRecDepth 2000 in
lemma c1r6 : ((List.range 11).map fun j =>
    Arow cexK cexM cexA c1C 600 h_bc 6 j * (fun i => cexT1.getD i 0) j).sum
    = bval cexM cexA c1C c1T0 600 h_bc 25 6 := by decide

unseal Rat.add Rat.mul Rat.inv Rat.sub Nat.gcd in
set_option maxRecDepth 2000 in
lemma c1r7 : ((List.range 11).map fun j =>
    Arow cexK cexM cexA c1C 600 h_bc 7 j * (fun i => cexT1.getD i 0) j).sum
    = bval cexM cexA c1C c1T0 600 h_bc 25 7 := by decide

unseal Rat.add Rat.mul Rat.inv Rat.sub Nat.gcd in
set_option maxRecDepth 2000 in
lemma c1r8 : ((List.range 11).map fun j =>
    Arow cexK cexM cexA c1C 600 h_bc 8 j * (fun i => cexT1.getD i 0) j).sum
    = bval cexM cexA c1C c1T0 600 h_bc 25 8 := by decide

unseal Rat.add Rat.mul Rat.inv Rat.sub Nat.gcd in
set_option maxRecDepth 2000 in
lemma c1r9 : ((List.range 11).map fun j =>
    Arow cexK cexM cexA c1C 600 h_bc 9 j * (fun i => cexT1.getD i 0) j).sum
    = bval cexM cexA c1C c1T0 600 h_bc 25 9 := by decide

unseal Rat.add Rat.mul Rat.inv Rat.sub Nat.gcd in
set_option maxRecDepth 2000 in
lemma c1r10 : ((List.range 11).map fun j =>
    Arow cexK cexM cexA c1C 600 h_bc 10 j * (fun i => cexT1.getD i 0) j).sum
    = bval cexM cexA c1C c1T0 600 h_bc 25 10 := by decide

unseal Rat.add Rat.mul Rat.inv Rat.sub Nat.gcd in
set_option maxRecDepth 2000 in
lemma c8ar0 : ((List.range 11).map fun j =>
    Arow cexK cexM cexA c8C1 600 h_bc 0 j * (fun i => cexS1.getD i 0) j).sum
    = bval cexM cexA c8C1 c8T0 600 h_bc 25 0 := by decide

unseal Rat.add Rat.mul Rat.inv Rat.sub Nat.gcd in
set_option maxRecDepth 2000 in
lemma c8ar1 : ((List.range 11).map fun j =>
    Arow cexK cexM cexA c8C1 600 h_bc 1 j * (fun i => cexS1.getD i 0) j).sum
    = bval cexM cexA c8C1 c8T0 600 h_bc 25 1 := by decide

unseal Rat.add Rat.mul Rat.inv Rat.sub Nat.gcd in
set_option maxRecDepth 2000 in
lemma c8ar2 : ((List.range 11).map fun j =>
    Arow cexK cexM cexA c8C1 600 h_bc 2 j * (fun i => cexS1.getD i 0) j).sum
    = bval cexM cexA c8C1 c8T0 600 h_bc 25 2 := by decide

unseal Rat.add Rat.mul Rat.inv Rat.sub Nat.gcd in
set_option maxRecDepth 2000 in
lemma c8ar3 : ((List.range 11).map fun j =>
    Arow cexK cexM cexA c8C1 600 h_bc 3 j * (fun i => cexS1.getD i 0) j).sum
    = bval cexM cexA c8C1 c8T0 600 h_bc 25 3 := by decide

unseal Rat.add Rat.mul Rat.inv Rat.sub Nat.gcd in
set_option maxRecDepth 2000 in
lemma c8ar4 : ((List.range 11).map fun j =>
    Arow cexK cexM cexA c8C1 600 h_bc 4 j * (fun i => cexS1.getD i 0) j).sum
    = bval cexM cexA c8C1 c8T0 600 h_bc 25 4 := by decide

unseal Rat.add Rat.mul Rat.inv Rat.sub Nat.gcd in
set_option maxRecDepth 2000 in
lemma c8ar5 : ((List.range 11).map fun j =>
    Arow cexK cexM cexA c8C1 600 h_bc 5 j * (fun i => cexS1.getD i 0) j).sum
    = bval cexM cexA c8C1 c8T0 600 h_bc 25 5 := by decide

unseal Rat.add Rat.mul Rat.inv Rat.sub Nat.gcd in
set_option maxRecDepth 2000 in
lemma c8ar6 : ((List.range 11).map fun j =>
    Arow cexK cexM cexA c8C1 600 h_bc 6 j * (fun i => cexS1.getD i 0) j).sum
    = bval cexM cexA c8C1 c8T0 600 h_bc 25 6 := by decide

unseal Rat.add Rat.mul Rat.inv Rat.sub Nat.gcd in
set_option maxRecDepth 2000 in
lemma c8ar7 : ((List.range 11).map fun j =>
    Arow cexK cexM cexA c8C1 600 h_bc 7 j * (fun i => cexS1.getD i 0) j).sum
    = bval cexM cexA c8C1 c8T0 600 h_bc 25 7 := by decide

unseal Rat.add Rat.mul Rat.inv Rat.sub Nat.gcd in
set_option maxRecDepth 2000 in
lemma c8ar8 : ((List.range 11).map fun j =>
    Arow cexK cexM cexA c8C1 600 h_bc 8 j * (fun i => cexS1.getD i 0) j).sum
    = bval cexM cexA c8C1 c8T0 600 h_bc 25 8 := by decide

unseal Rat.add Rat.mul Rat.inv Rat.sub Nat.gcd in
set_option maxRecDepth 2000 in
lemma c8ar9 : ((List.range 11).map fun j =>
    Arow cexK cexM cexA c8C1 600 h_bc 9 j * (fun i => cexS1.getD i 0) j).sum
    = bval cexM cexA c8C1 c8T0 600 h_bc 25 9 := by decide

unseal Rat.add Rat.mul Rat.inv Rat.sub Nat.gcd in
set_option maxRecDepth 2000 in
lemma c8ar10 : ((List.range 11).map fun j =>
    Arow cexK cexM cexA c8C1 600 h_bc 10 j * (fun i => cexS1.getD i 0) j).sum
    = bval cexM cexA c8C1 c8T0 600 h_bc 25 10 := by decide

unseal Rat.add Rat.mul Rat.inv Rat.sub Nat.gcd in
set_option maxRecDepth 2000 in
lemma c8br0 : ((List.range 11).map fun j =>
    Arow cexK cexM cexA c8C2 600 h_bc 0 j * (fun i => cexS2.getD i 0) j).sum
    = bval cexM cexA c8C2 c8S1c 600 h_bc 25 0 := by decide

unseal Rat.add Rat.mul Rat.inv Rat.sub Nat.gcd in
set_option maxRecDepth 2000 in
lemma c8br1 : ((List.range 11).map fun j =>
    Arow cexK cexM cexA c8C2 600 h_bc 1 j * (fun i => cexS2.getD i 0) j).sum
    = bval cexM cexA c8C2 c8S1c 600 h_bc 25 1 := by decide

unseal Rat.add Rat.mul Rat.inv Rat.sub Nat.gcd in
set_option maxRecDepth 2000 in
lemma c8br2 : ((List.range 11).map fun j =>
    Arow cexK cexM cexA c8C2 600 h_bc 2 j * (fun i => cexS2.getD i 0) j).sum
    = bval cexM cexA c8C2 c8S1c 600 h_bc 25 2 := by decide

unseal Rat.add Rat.mul Rat.inv Rat.sub Nat.gcd in
set_option maxRecDepth 2000 in
lemma c8br3 : ((List.range 11).map fun j =>
    Arow cexK cexM cexA c8C2 600 h_bc 3 j * (fun i => cexS2.getD i 0) j).sum
    = bval cexM cexA c8C2 c8S1c 600 h_bc 25 3 := by decide

unseal Rat.add Rat.mul Rat.inv Rat.sub Nat.gcd in
set_option maxRecDepth 2000 in
lemma c8br4 : ((List.range 11).map fun j =>
    Arow cexK cexM cexA c8C2 600 h_bc 4 j * (fun i => cexS2.getD i 0) j).sum
    = bval cexM cexA c8C2 c8S1c 600 h_bc 25 4 := by decide

unseal Rat.add Rat.mul Rat.inv Rat.sub Nat.gcd in
set_option maxRecDepth 2000 in
lemma c8br5 : ((List.range 11).map fun j =>
    Arow cexK cexM cexA c8C2 600 h_bc 5 j * (fun i => cexS2.getD i 0) j).sum
    = bval cexM cexA c8C2 c8S1c 600 h_bc 25 5 := by decide

unseal Rat.add Rat.mul Rat.inv Rat.sub Nat.gcd in
set_option maxRecDepth 2000 in
lemma c8br6 : ((List.range 11).map fun j =>
    Arow cexK cexM cexA c8C2 600 h_bc 6 j * (fun i => cexS2.getD i 0) j).sum
    = bval cexM cexA c8C2 c8S1c 600 h_bc 25 6 := by decide

unseal Rat.add Rat.mul Rat.inv Rat.sub Nat.gcd in
set_option maxRecDepth 2000 in
lemma c8br7 : ((List.range 11).map fun j =>
    Arow cexK cexM cexA c8C2 600 h_bc 7 j * (fun i => cexS2.getD i 0) j).sum
    = bval cexM cexA c8C2 c8S1c 600 h_bc 25 7 := by decide

unseal Rat.add Rat.mul Rat.inv Rat.sub Nat.gcd in
set_option maxRecDepth 2000 in
lemma c8br8 : ((List.range 11).map fun j =>
    Arow cexK cexM cexA c8C2 600 h_bc 8 j * (fun i => cexS2.getD i 0) j).sum
    = bval cexM cexA c8C2 c8S1c 600 h_bc 25 8 := by decide

unseal Rat.add Rat.mul Rat.inv Rat.sub Nat.gcd in
set_option maxRecDepth 2000 in
lemma c8br9 : ((List.range 11).map fun j =>
    Arow cexK cexM cexA c8C2 600 h_bc 9 j * (fun i => cexS2.getD i 0) j).sum
    = bval cexM cexA c8C2 c8S1c 600 h_bc 25 9 := by decide

unseal Rat.add Rat.mul Rat.inv Rat.sub Nat.gcd in
set_option maxRecDepth 2000 in
lemma c8br10 : ((List.range 11).map fun j =>
    Arow cexK cexM cexA c8C2 600 h_bc 10 j * (fun i => cexS2.getD i 0) j).sum
    = bval cexM cexA c8C2 c8S1c 600 h_bc 25 10 := by decide


unseal Rat.add Rat.mul Rat.inv Rat.sub Nat.gcd in
set_option maxRecDepth 2000 in
/-- C1 (counterexample): on the certificate mesh, accepted by the solver
constructor with aluminum, initial 700 and ambient 25, the exact solution
of the very first timestep system (uniform capacities: all nodes start
liquid) reaches 965.7 degrees at node 0 after clamping — strictly above
`max(initial, ambient) = 700`.  The upper bound of the claim fails. -/
theorem C1_counterexample :
    (solverInit cexMeshData "aluminum" 700 25).isOk = true ∧
      SolvesStep 11 (Arow cexK cexM cexA c1C 600 h_bc)
        (bval cexM cexA c1C c1T0 600 h_bc 25) (fun i => cexT1.getD i 0) ∧
      max (c1T0 0) 25 < clampAmb 25 (fun i => cexT1.getD i 0) 0 := by
  refine ⟨by decide, ?_, by decide⟩
  intro i hi
  match i, hi with
  | 0, _ => exact c1r0
  | 1, _ => exact c1r1
  | 2, _ => exact c1r2
  | 3, _ => exact c1r3
  | 4, _ => exact c1r4
  | 5, _ => exact c1r5
  | 6, _ => exact c1r6
  | 7, _ => exact c1r7
  | 8, _ => exact c1r8
  | 9, _ => exact c1r9
  | 10, _ => exact c1r10
  | (m + 11), hi => exact absurd hi (by omega)

unseal Rat.add Rat.mul Rat.inv Rat.sub Nat.gcd in
set_option maxRecDepth 2000 in
/-- C8 (counterexample): on the same certificate mesh, accepted by the
constructor with aluminum, initial 614 (inside the mushy band) and ambient
25, the exact solutions of the first two timestep systems — the second
assembled from the clamped first-step temperatures through the phase
update, exactly as the solver does — have strictly increasing stored
energy `sum of M[i] * (T[i] - ambient)`: the energy rises from about
7.79e6 to about 7.93e6.  The claim's step-over-step monotonicity fails. -/
theorem C8_counterexample :
    (solverInit cexMeshData "aluminum" 614 25).isOk = true ∧
      SolvesStep 11 (Arow cexK cexM cexA c8C1 600 h_bc)
        (bval cexM cexA c8C1 c8T0 600 h_bc 25) (fun i => cexS1.getD i 0) ∧
      SolvesStep 11 (Arow cexK cexM cexA c8C2 600 h_bc)
        (bval cexM cexA c8C2 c8S1c 600 h_bc 25) (fun i => cexS2.getD i 0) ∧
      cexEnergy (fun i => cexS1.getD i 0) < cexEnergy (fun i => cexS2.getD i 0) := by
  refine ⟨by decide, ?_, ?_, by decide⟩
  · intro i hi
    match i, hi with
    | 0, _ => exact c8ar0
    | 1, _ => exact c8ar1
    | 2, _ => exact c8ar2
    | 3, _ => exact c8ar3
    | 4, _ => exact c8ar4
    | 5, _ => exact c8ar5
    | 6, _ => exact c8ar6
    | 7, _ => exact c8ar7
    | 8, _ => exact c8ar8
    | 9, _ => exact c8ar9
    | 10, _ => exact c8ar10
    | (m + 11), hi => exact absurd hi (by omega)
  · intro i hi
    match i, hi with
    | 0, _ => exact c8br0
    | 1, _ => exact c8br1
    | 2, _ => exact c8br2
    | 3, _ => exact c8br3
    | 4, _ => exact c8br4
    | 5, _ => exact c8br5
    | 6, _ => exact c8br6
    | 7, _ => exact c8br7
    | 8, _ => exact c8br8
    | 9, _ => exact c8br9
    | 10, _ => exact c8br10
    | (m + 11), hi => exact absurd hi (by omega)

unseal Rat.add Rat.mul Rat.inv Rat.sub Nat.gcd in
set_option maxRecDepth 2000 in
/-- C5 (counterexample): in the secondary pipeline, the exact solution of
the first `step_temperature` system on the certificate tetrahedron leaves
node 0 at about 637.2 degrees — above the liquidus 615, outside the mushy
band — yet the per-step Niyama value computed by `run_sim` at node 0 is
nonzero, contradicting the claim that the computed Niyama is exactly 0
outside the band on every code path. -/
theorem C5_counterexample :
    SolvesStep 4 (tsArow c5Nodes c5Elems [0] c5Ceff 1 1 1 1)
      (tsBval c5Nodes c5Elems [0] c5Ceff c5T0 1 1 1 300) (fun i => c5T1.getD i 0) ∧
      615 < c5T1.getD 0 0 ∧
      runSimStepNiyama qsqrt c5Nodes c5Elems 1 c5T0 (fun i => c5T1.getD i 0) 0 ≠ 0 := by
  refine ⟨by decide, by decide, by decide⟩

end CastingSim
